import Mathlib

/-!
Verification development for `src/util/TimeConverter.py`.

The Python class `TimeConverter` converts naive timestamps between a named
local timezone and UTC using `pandas` and `pytz`, and classifies the length
of the relevant calendar day (23/24/25 hourly instants) to detect DST
transition days.

Shallow embedding choices:
* A naive timestamp is its microsecond count from the Unix epoch (`Int`).
  Python's `datetime.replace(hour=0, minute=0, second=0, microsecond=0)`
  on such a value is flooring to a multiple of the microseconds per day,
  which `Int.ediv` (floor division) gives exactly, also before 1970.
* A `Timezone` is a base (offset, dst) pair plus a chronologically sorted
  list of transitions, each carrying the UTC instant at which it takes
  effect and the (offset, dst) pair in force afterwards, in seconds.
  This mirrors the pytz per-zone transition table.
* `localize` models `pytz.tzinfo.localize(dt, is_dst=None)`: a wall-clock
  value is matched against every distinct (offset, dst) pair of the zone;
  a pair fits when re-interpreting the wall time under that offset lands
  in a period that indeed uses the pair.  No fit raises
  `NonExistentTimeError`, more than one fit raises `AmbiguousTimeError`,
  a unique fit succeeds — exactly pytz's `is_dst=None` behaviour.
* `pd.date_range(start, end, freq='h')` on timezone-aware endpoints steps
  in absolute time, so its length is `(end - start) / 1h + 1` (floor) when
  `start ≤ end` and `0` otherwise; `dateRangeHourCount` embeds that.
* `pdToDatetime` models `pandas.to_datetime`'s format inference on the
  hyphenated numeric date shapes exercised by this repository:
  `YYYY-MM-DD[ HH:MM[:SS]]`, and `A-B-YYYY` which pandas reads
  month-first, falling back to day-first when the first field exceeds 12
  (so `"31-03-2024"` parses to 2024-03-31).  Out-of-range or non-numeric
  fields yield `none` (pandas raises there).
-/

def usPerSec : Int := 1000000

def usPerHour : Int := 3600000000

def usPerDay : Int := 86400000000

/-- Days from the civil epoch 1970-01-01 for a Gregorian date, the standard
days-from-civil computation restricted to the years representable by a
pandas `Timestamp` (so every intermediate quantity is a nonnegative `Nat`). -/
def daysFromCivil (y m d : Nat) : Int :=
  let y2 := if m ≤ 2 then y - 1 else y
  let era := y2 / 400
  let yoe := y2 - era * 400
  let mp := (m + 9) % 12
  let doy := (153 * mp + 2) / 5 + d - 1
  let doe := yoe * 365 + yoe / 4 - yoe / 100 + doy
  ((era * 146097 + doe : Nat) : Int) - 719468

/-- Microseconds from the Unix epoch of a civil UTC instant; used to state
zone-database transition instants and concrete inputs. -/
def civilUs (y m d hh mi : Nat) : Int :=
  (daysFromCivil y m d * 86400 + ((hh : Int) * 3600 + (mi : Int) * 60)) * usPerSec

/-- One entry of a zone's transition table: from UTC instant `atUtc`
(microseconds) on, the zone uses total offset `offset` and daylight-saving
component `dst` (both in seconds). -/
structure TzTransition where
  atUtc : Int
  offset : Int
  dst : Int
deriving DecidableEq

/-- A named zone's data: the (offset, dst) in force before every listed
transition, plus the chronologically sorted transition table.  Mirrors the
pytz zone data consumed by `TimeConverter.py`. -/
structure Timezone where
  baseOffset : Int
  baseDst : Int
  transitions : List TzTransition
deriving DecidableEq

/-- The (offset, dst) pair in force at UTC instant `u`: the last transition
at or before `u`, else the base pair.  This is pytz's bisection into the
transition table. -/
def offsetAt (tz : Timezone) (u : Int) : Int × Int :=
  tz.transitions.foldl
    (fun acc tr => if tr.atUtc ≤ u then (tr.offset, tr.dst) else acc)
    (tz.baseOffset, tz.baseDst)

/-- The distinct (offset, dst) pairs a zone ever uses — pytz's candidate
tzinfos for localization. -/
def candidateOffsets (tz : Timezone) : List (Int × Int) :=
  ((tz.baseOffset, tz.baseDst) :: tz.transitions.map (fun tr => (tr.offset, tr.dst))).dedup

/-- Errors surfaced by the embedded operations, one constructor per
exception the Python code can raise: `pandas` parse failures,
`pytz.UnknownTimeZoneError`, and pytz's `AmbiguousTimeError` /
`NonExistentTimeError` from `localize(..., is_dst=None)`. -/
inductive TCError where
  | parseError
  | unknownTimezone
  | ambiguousTime
  | nonExistentTime
deriving DecidableEq

/-- Model of `tz.localize(wall, is_dst=None)`: find every candidate
(offset, dst) pair that consistently interprets the naive wall-clock value
`w`; none fits → `NonExistentTimeError`, a unique fit → the UTC instant
with that pair, several fits → `AmbiguousTimeError`.  Returns
`(utcInstant, offset, dst)`. -/
def localize (tz : Timezone) (w : Int) : Except TCError (Int × Int × Int) :=
  match (candidateOffsets tz).filter
      (fun p => decide (offsetAt tz (w - p.1 * usPerSec) = p)) with
  | [] => .error .nonExistentTime
  | [p] => .ok (w - p.1 * usPerSec, p.1, p.2)
  | _ => .error .ambiguousTime

/-- The zone database handed to the converter: `pytz.timezone` is a lookup
by name in it, raising `UnknownTimeZoneError` on a miss. -/
abbrev ZoneDB := List (String × Timezone)

def pytzTimezone (db : ZoneDB) (name : String) : Option Timezone :=
  db.lookup name

def digitVal (c : Char) : Option Nat :=
  if '0' ≤ c ∧ c ≤ '9' then some (c.toNat - '0'.toNat) else none

def parseNatCore : List Char → Nat → Option Nat
  | [], acc => some acc
  | c :: cs, acc =>
    match digitVal c with
    | some d => parseNatCore cs (acc * 10 + d)
    | none => none

/-- A nonempty all-digit field, as a number. -/
def parseNatDigits (cs : List Char) : Option Nat :=
  match cs with
  | [] => none
  | _ => parseNatCore cs 0

/-- Split a character list on a separator (like `str.split` on one char). -/
def splitOnChar (sep : Char) (cs : List Char) : List (List Char) :=
  match cs with
  | [] => [[]]
  | c :: rest =>
    let r := splitOnChar sep rest
    if c = sep then [] :: r
    else
      match r with
      | [] => [[c]]
      | g :: gs => (c :: g) :: gs

def isLeapYear (y : Nat) : Bool :=
  y % 4 == 0 && (y % 100 != 0 || y % 400 == 0)

def daysInMonth (y m : Nat) : Nat :=
  if m = 2 then (if isLeapYear y then 29 else 28)
  else if m = 4 ∨ m = 6 ∨ m = 9 ∨ m = 11 then 30
  else 31

/-- Calendar validity within the pandas `Timestamp` range. -/
def validDate (y m d : Nat) : Bool :=
  1678 ≤ y && y ≤ 2261 && 1 ≤ m && m ≤ 12 && 1 ≤ d && d ≤ daysInMonth y m

/-- Date-part inference of `pandas.to_datetime` on hyphenated numeric
dates: a 4-digit first field is `YYYY-MM-DD`; a 4-digit last field is read
month-first (`MM-DD-YYYY`), falling back to day-first when the first field
exceeds 12. -/
def parseDatePart (cs : List Char) : Option (Nat × Nat × Nat) :=
  match splitOnChar '-' cs with
  | [a, b, c] =>
    match parseNatDigits a, parseNatDigits b, parseNatDigits c with
    | some x, some y, some z =>
      if a.length = 4 then
        if validDate x y z then some (x, y, z) else none
      else if c.length = 4 then
        if x ≤ 12 then
          if validDate z x y then some (z, x, y) else none
        else
          if validDate z y x then some (z, y, x) else none
      else none
    | _, _, _ => none
  | _ => none

/-- Time-of-day part: `HH:MM` or `HH:MM:SS`, numeric and in range. -/
def parseTimePart (cs : List Char) : Option (Nat × Nat × Nat) :=
  match splitOnChar ':' cs with
  | [a, b] =>
    match parseNatDigits a, parseNatDigits b with
    | some hh, some mi =>
      if hh ≤ 23 ∧ mi ≤ 59 then some (hh, mi, 0) else none
    | _, _ => none
  | [a, b, c] =>
    match parseNatDigits a, parseNatDigits b, parseNatDigits c with
    | some hh, some mi, some ss =>
      if hh ≤ 23 ∧ mi ≤ 59 ∧ ss ≤ 59 then some (hh, mi, ss) else none
    | _, _, _ => none
  | _ => none

/-- Model of `pandas.to_datetime` on the input shapes this repository
feeds it (see the module docstring): a date, optionally followed by a
space and a time of day; result is naive epoch microseconds. -/
def pdToDatetime (s : String) : Option Int :=
  match splitOnChar ' ' s.data with
  | [datePart] =>
    match parseDatePart datePart with
    | some (y, m, d) => some (daysFromCivil y m d * 86400 * usPerSec)
    | none => none
  | [datePart, timePart] =>
    match parseDatePart datePart, parseTimePart timePart with
    | some (y, m, d), some (hh, mi, ss) =>
      some ((daysFromCivil y m d * 86400
        + ((hh : Int) * 3600 + (mi : Int) * 60 + (ss : Int))) * usPerSec)
    | _, _ => none
  | _ => none

/-- An argument to the converter: the Python methods accept either a string
(parsed with `pd.to_datetime`) or an already-built naive `datetime`. -/
inductive TCInput where
  | str (s : String)
  | dt (t : Int)

/-- The `isinstance(x, str)` branch at the top of both methods. -/
def parseInput : TCInput → Except TCError Int
  | .str s =>
    match pdToDatetime s with
    | some t => .ok t
    | none => .error .parseError
  | .dt t => .ok t

/-- The dict returned by `local_to_utc`: input echo, timezone name, naive
UTC time, `is_dst`, and the optional DST-transition message. -/
structure LocalToUtcResult where
  input_local_time : Int
  timezone : String
  utc_time : Int
  is_dst : Bool
  dst_transition : Option String
deriving DecidableEq

/-- The dict returned by `utc_to_local`. -/
structure UtcToLocalResult where
  input_utc_time : Int
  timezone : String
  local_time : Int
  is_dst : Bool
  dst_transition : Option String
deriving DecidableEq

def springMsg : String := "DST starts (Spring, losing one hour)"

def fallMsg : String := "DST ends (Fall, gaining one hour)"

/-- The `if len(day_hours) != 24` classification at the end of both
methods: 23 hourly instants → spring message, 25 → fall message, anything
else (24 included) → `None`. -/
def classifyDayHours (n : Int) : Option String :=
  if n ≠ 24 then
    if n = 23 then some springMsg
    else if n = 25 then some fallMsg
    else none
  else none

/-- Length of `pd.date_range(start, end, freq='h')` for timezone-aware
endpoints given as absolute microsecond instants: stepping is in absolute
time, inclusive of `start`, up to `end`. -/
def dateRangeHourCount (startU endU : Int) : Int :=
  if endU < startU then 0 else (endU - startU).ediv usPerHour + 1

/-- The Python class: `__init__` stores nothing, so the structure has no
fields; both methods take it as `self`. -/
structure TimeConverter where

/-- Embedding of `TimeConverter.local_to_utc`, with the process-wide pytz
zone database made an explicit argument `db`.  Steps, in source order:
parse, `pytz.timezone` lookup, `tz.localize(local_time, is_dst=None)`,
`is_dst` from the dst component, `astimezone(pytz.UTC)` (the localized
instant itself), the local-day bounds via `replace`, localization of both
bounds, and the hourly `pd.date_range` length classification. -/
def TimeConverter.local_to_utc (_self : TimeConverter) (db : ZoneDB)
    (input : TCInput) (timezone : String) : Except TCError LocalToUtcResult :=
  match parseInput input with
  | .error e => .error e
  | .ok local_time =>
    match pytzTimezone db timezone with
    | none => .error .unknownTimezone
    | some tz =>
      match localize tz local_time with
      | .error e => .error e
      | .ok (utc, _, dst) =>
        match localize tz (local_time.ediv usPerDay * usPerDay) with
        | .error e => .error e
        | .ok (us, _, _) =>
          match localize tz (local_time.ediv usPerDay * usPerDay + usPerDay - 1) with
          | .error e => .error e
          | .ok (ue, _, _) =>
            .ok { input_local_time := local_time, timezone := timezone,
                  utc_time := utc, is_dst := decide (dst ≠ 0),
                  dst_transition := classifyDayHours (dateRangeHourCount us ue) }

/-- Embedding of `TimeConverter.utc_to_local`.  `pytz.UTC.localize` merely
attaches a fixed zero offset and never fails; `astimezone(tz)` keeps the
absolute instant, so the naive local time is the input shifted by the
offset in force at that instant, and the `pd.date_range` over the UTC
day's converted bounds spans exactly the UTC day's absolute duration. -/
def TimeConverter.utc_to_local (_self : TimeConverter) (db : ZoneDB)
    (input : TCInput) (timezone : String) : Except TCError UtcToLocalResult :=
  match parseInput input with
  | .error e => .error e
  | .ok utc_time =>
    match pytzTimezone db timezone with
    | none => .error .unknownTimezone
    | some tz =>
      .ok { input_utc_time := utc_time, timezone := timezone,
            local_time := utc_time + (offsetAt tz utc_time).1 * usPerSec,
            is_dst := decide ((offsetAt tz utc_time).2 ≠ 0),
            dst_transition := classifyDayHours (dateRangeHourCount
              (utc_time.ediv usPerDay * usPerDay)
              (utc_time.ediv usPerDay * usPerDay + usPerDay - 1)) }

/-- Lines 40–47 of `local_to_utc` in isolation: the hourly-instant count of
the input's local calendar day, used by the claims about the 23/24/25
classification. -/
def localDayHourCount (db : ZoneDB) (timezone : String) (t : Int) :
    Except TCError Int :=
  match pytzTimezone db timezone with
  | none => .error .unknownTimezone
  | some tz =>
    match localize tz (t.ediv usPerDay * usPerDay) with
    | .error e => .error e
    | .ok (us, _, _) =>
      match localize tz (t.ediv usPerDay * usPerDay + usPerDay - 1) with
      | .error e => .error e
      | .ok (ue, _, _) => .ok (dateRangeHourCount us ue)

/-- Europe/Rome, IANA tz database excerpt covering 2024: CET (+01:00) with
CEST (+02:00) between 2024-03-31 01:00 UTC and 2024-10-27 01:00 UTC. -/
def europeRome : Timezone :=
  { baseOffset := 3600, baseDst := 0,
    transitions := [
      { atUtc := civilUs 2024 3 31 1 0, offset := 7200, dst := 3600 },
      { atUtc := civilUs 2024 10 27 1 0, offset := 3600, dst := 0 }] }

/-- Asia/Taipei, IANA tz database: fixed +08:00, no DST. -/
def asiaTaipei : Timezone :=
  { baseOffset := 28800, baseDst := 0, transitions := [] }

/-- America/Asuncion, IANA tz database excerpt: -04:00 standard, DST
-03:00 from 2023-10-01 00:00 local standard (04:00 UTC) to 2024-03-24
00:00 local DST (03:00 UTC).  The spring-forward happens at local
midnight, so 00:00:00 of 2023-10-01 is a non-existent wall-clock time. -/
def americaAsuncion : Timezone :=
  { baseOffset := -14400, baseDst := 0,
    transitions := [
      { atUtc := civilUs 2023 10 1 4 0, offset := -10800, dst := 3600 },
      { atUtc := civilUs 2024 3 24 3 0, offset := -14400, dst := 0 }] }

/-- Antarctica/Troll, IANA tz database excerpt covering 2024: +00:00 with
a two-hour DST (+02:00) between 2024-03-31 01:00 UTC and 2024-10-27 01:00
UTC, so the spring-forward local day has 22 hours. -/
def antarcticaTroll : Timezone :=
  { baseOffset := 0, baseDst := 0,
    transitions := [
      { atUtc := civilUs 2024 3 31 1 0, offset := 7200, dst := 7200 },
      { atUtc := civilUs 2024 10 27 1 0, offset := 0, dst := 0 }] }

/-- The zone-database instance used by the concrete theorems, an excerpt
of the IANA database around 2023–2024. -/
def zoneDB : ZoneDB :=
  [("Europe/Rome", europeRome),
   ("Asia/Taipei", asiaTaipei),
   ("America/Asuncion", americaAsuncion),
   ("Antarctica/Troll", antarcticaTroll)]

/-- Local noon of 2024-03-31 (epoch day 19813), Europe's spring-forward
day, as naive microseconds. -/
def mar31noon2024 : Int := (19813 * 86400 + 43200) * 1000000

/-- Local noon of 2024-10-27 (epoch day 20023), Europe's fall-back day. -/
def oct27noon2024 : Int := (20023 * 86400 + 43200) * 1000000

/-- Local noon of 2023-10-01 (epoch day 19631), Paraguay's midnight
spring-forward day. -/
def asuncionOct1noon2023 : Int := (19631 * 86400 + 43200) * 1000000

/-- 2024-10-27 01:30 as naive microseconds (a UTC instant in claim C8). -/
def taipeiProbe : Int := (20023 * 86400 + 5400) * 1000000

/-- A successful `localize` interprets the wall time under an offset that is
indeed in force at the resulting UTC instant. -/
theorem localize_ok_spec {tz : Timezone} {w u o d : Int}
    (h : localize tz w = .ok (u, o, d)) :
    offsetAt tz u = (o, d) ∧ u = w - o * usPerSec := by
  unfold localize at h
  split at h
  · simp at h
  · rename_i p heq
    obtain ⟨p1, p2⟩ := p
    have hmem : (p1, p2) ∈ (candidateOffsets tz).filter
        (fun p => decide (offsetAt tz (w - p.1 * usPerSec) = p)) := by
      rw [heq]; exact List.mem_singleton_self _
    have hpred := of_decide_eq_true (List.mem_filter.mp hmem).2
    simp only [Except.ok.injEq, Prod.mk.injEq] at h
    obtain ⟨h1, h2, h3⟩ := h
    subst h2; subst h3
    refine ⟨?_, h1.symm⟩
    rw [h1] at hpred
    exact hpred
  · simp at h

/-- Eliminator for a successful `local_to_utc` on an already-structured
moment: recovers the zone lookup, the three localizations the method
performs, and the exact shape of the returned record. -/
theorem local_to_utc_ok_elim {c : TimeConverter} {db : ZoneDB} {t : Int}
    {z : String} {r : LocalToUtcResult}
    (h : TimeConverter.local_to_utc c db (.dt t) z = .ok r) :
    ∃ tz u o d us os ds2 ue oe de2,
      pytzTimezone db z = some tz ∧
      localize tz t = .ok (u, o, d) ∧
      localize tz (t.ediv usPerDay * usPerDay) = .ok (us, os, ds2) ∧
      localize tz (t.ediv usPerDay * usPerDay + usPerDay - 1) = .ok (ue, oe, de2) ∧
      r = { input_local_time := t, timezone := z, utc_time := u,
            is_dst := decide (d ≠ 0),
            dst_transition := classifyDayHours (dateRangeHourCount us ue) } := by
  unfold TimeConverter.local_to_utc at h
  simp only [parseInput] at h
  split at h
  · simp at h
  · rename_i tz heq
    split at h
    · simp at h
    · rename_i trip1 u o d heq1
      split at h
      · simp at h
      · rename_i trip2 us os ds2 heq2
        split at h
        · simp at h
        · rename_i trip3 ue oe de2 heq3
          simp only [Except.ok.injEq] at h
          exact ⟨tz, u, o, d, us, os, ds2, ue, oe, de2,
            heq, heq1, heq2, heq3, h.symm⟩

/-- Eliminator for a successful `utc_to_local` on an already-structured
moment. -/
theorem utc_to_local_ok_elim {c : TimeConverter} {db : ZoneDB} {t : Int}
    {z : String} {r : UtcToLocalResult}
    (h : TimeConverter.utc_to_local c db (.dt t) z = .ok r) :
    ∃ tz,
      pytzTimezone db z = some tz ∧
      r = { input_utc_time := t, timezone := z,
            local_time := t + (offsetAt tz t).1 * usPerSec,
            is_dst := decide ((offsetAt tz t).2 ≠ 0),
            dst_transition := classifyDayHours (dateRangeHourCount
              (t.ediv usPerDay * usPerDay)
              (t.ediv usPerDay * usPerDay + usPerDay - 1)) } := by
  unfold TimeConverter.utc_to_local at h
  simp only [parseInput] at h
  split at h
  · simp at h
  · rename_i tz heq
    simp only [Except.ok.injEq] at h
    exact ⟨tz, heq, h.symm⟩

/-- A UTC calendar day spans just under 24 absolute hours, so the converted
hourly range in `utc_to_local` always counts 24 instants. -/
theorem dateRangeHourCount_utc_day (ds : Int) :
    dateRangeHourCount ds (ds + usPerDay - 1) = 24 := by
  unfold dateRangeHourCount usPerDay usPerHour
  have h1 : ¬ (ds + 86400000000 - 1 < ds) := by omega
  rw [if_neg h1]
  have h2 : ds + 86400000000 - 1 - ds = 86399999999 := by omega
  rw [h2]
  decide

/-- C9: both operations are deterministic pure functions of (input time,
timezone name, zone database).  In particular no converter-instance state
can influence a result — any two `TimeConverter` values (the class stores
nothing) produce identical records — and repeating a call with the same
arguments yields a bit-identical record. -/
theorem C9_deterministic_pure (c1 c2 : TimeConverter) (db : ZoneDB)
    (input : TCInput) (z : String) :
    c1.local_to_utc db input z = c2.local_to_utc db input z ∧
    c1.utc_to_local db input z = c2.utc_to_local db input z := by
  cases c1
  cases c2
  exact ⟨rfl, rfl⟩

/-- C10: for every structured naive UTC moment and every timezone present
in the zone database, `utc_to_local` succeeds — attaching UTC is a fixed
zero-offset operation with no DST transitions, so no ambiguous or
non-existent-time error can arise, unlike `local_to_utc`'s local-side
localization. -/
theorem C10_utc_to_local_total (c : TimeConverter) (db : ZoneDB) (t : Int)
    (z : String) (tz : Timezone) (h : pytzTimezone db z = some tz) :
    ∃ r, c.utc_to_local db (.dt t) z = .ok r := by
  unfold TimeConverter.utc_to_local
  simp only [parseInput]
  rw [h]
  exact ⟨_, rfl⟩

/-- C10 witness at a concrete database, zone and instant. -/
theorem C10_witness :
    ∃ r, TimeConverter.utc_to_local {} zoneDB (.dt taipeiProbe) "Asia/Taipei" = .ok r :=
  C10_utc_to_local_total {} zoneDB taipeiProbe "Asia/Taipei" asiaTaipei rfl

/-- C6: a timezone name absent from the zone database makes both
operations fail immediately with the unknown-timezone error, before any
conversion result is produced. -/
theorem C6_unknown_timezone (c : TimeConverter) (db : ZoneDB) (t : Int)
    (z : String) (h : pytzTimezone db z = none) :
    c.local_to_utc db (.dt t) z = .error .unknownTimezone ∧
    c.utc_to_local db (.dt t) z = .error .unknownTimezone := by
  constructor
  · unfold TimeConverter.local_to_utc
    simp only [parseInput]
    rw [h]
  · unfold TimeConverter.utc_to_local
    simp only [parseInput]
    rw [h]

/-- C6 witness: `"Mars/Colony"` is not in the database and both operations
report the unknown-timezone error on it. -/
theorem C6_witness :
    TimeConverter.local_to_utc {} zoneDB (.dt 0) "Mars/Colony" = .error .unknownTimezone ∧
    TimeConverter.utc_to_local {} zoneDB (.dt 0) "Mars/Colony" = .error .unknownTimezone :=
  C6_unknown_timezone {} zoneDB 0 "Mars/Colony" rfl

/-- C3 as written is false: `utc_to_local` on the UTC noon of 2024-10-27 —
a UTC day that contains Europe/Rome's fall-back instant (01:00 UTC that
day, inside the UTC day's bounds, as the two inequalities state) — returns
`dst_transition = none`, not a fall-back tag. -/
theorem C3_counterexample :
    TimeConverter.utc_to_local {} zoneDB (.dt oct27noon2024) "Europe/Rome" =
      .ok { input_utc_time := oct27noon2024, timezone := "Europe/Rome",
            local_time := 1730034000000000, is_dst := false,
            dst_transition := none } ∧
    oct27noon2024.ediv usPerDay * usPerDay ≤ civilUs 2024 10 27 1 0 ∧
    civilUs 2024 10 27 1 0 < oct27noon2024.ediv usPerDay * usPerDay + usPerDay := by
  exact ⟨rfl, by decide, by decide⟩

/-- C3 amended: `utc_to_local` does run the 23/24/25 classification on the
hourly range between the converted bounds of the input's UTC calendar day,
but those bounds are one UTC day minus one microsecond apart in absolute
time and the hourly range steps in absolute time, so the count is always
24 and `dst_transition` is always `none` — a DST transition inside the UTC
day is never reported. -/
theorem C3_amended (c : TimeConverter) (db : ZoneDB) (t : Int) (z : String)
    (r : UtcToLocalResult) (h : c.utc_to_local db (.dt t) z = .ok r) :
    r.dst_transition = none := by
  obtain ⟨tz, _, hr⟩ := utc_to_local_ok_elim h
  rw [hr]
  show classifyDayHours (dateRangeHourCount _ _) = none
  rw [dateRangeHourCount_utc_day]
  decide

/-- C3 amended witness: the Taipei probe conversion succeeds and carries no
transition tag. -/
theorem C3_witness :
    TimeConverter.utc_to_local {} zoneDB (.dt taipeiProbe) "Asia/Taipei" =
      .ok { input_utc_time := taipeiProbe, timezone := "Asia/Taipei",
            local_time := 1730021400000000, is_dst := false,
            dst_transition := none } ∧
    ({ input_utc_time := taipeiProbe, timezone := "Asia/Taipei",
       local_time := 1730021400000000, is_dst := false,
       dst_transition := none } : UtcToLocalResult).dst_transition = none :=
  ⟨rfl, C3_amended {} zoneDB taipeiProbe "Asia/Taipei" _ rfl⟩

/-- C2: the 23/24/25 classification of the input's local calendar day in
`local_to_utc`: a 24-hour count gives no tag, 23 gives the spring-forward
message, 25 the fall-back message; and on the concrete database every
successfully converted moment of 2024-03-31 in Europe/Rome has count 23
with the spring tag, every one of 2024-10-27 count 25 with the fall tag. -/
theorem C2_day_length_classification (c : TimeConverter) (db : ZoneDB)
    (t : Int) (z : String) (r : LocalToUtcResult) (n : Int)
    (h1 : c.local_to_utc db (.dt t) z = .ok r)
    (h2 : localDayHourCount db z t = .ok n) :
    ((n = 24 → r.dst_transition = none) ∧
     (n = 23 → r.dst_transition = some springMsg) ∧
     (n = 25 → r.dst_transition = some fallMsg)) ∧
    (db = zoneDB → z = "Europe/Rome" → t.ediv usPerDay = 19813 →
      n = 23 ∧ r.dst_transition = some springMsg) ∧
    (db = zoneDB → z = "Europe/Rome" → t.ediv usPerDay = 20023 →
      n = 25 ∧ r.dst_transition = some fallMsg) := by
  obtain ⟨tz, u, o, d, us, os, ds2, ue, oe, de2, hz, hl, hs, he, hr⟩ :=
    local_to_utc_ok_elim h1
  have hn : localDayHourCount db z t = .ok (dateRangeHourCount us ue) := by
    unfold localDayHourCount
    simp only [hz, hs, he]
  rw [h2] at hn
  have hcount : n = dateRangeHourCount us ue := by
    simpa using hn
  have hkey : r.dst_transition = classifyDayHours n := by
    rw [hr, hcount]
  refine ⟨⟨?_, ?_, ?_⟩, ?_, ?_⟩
  · intro hv; rw [hkey, hv]; decide
  · intro hv; rw [hkey, hv]; decide
  · intro hv; rw [hkey, hv]; decide
  · intro hdb hz2 hday
    subst hdb; subst hz2
    have hsame : localDayHourCount zoneDB "Europe/Rome" t =
        localDayHourCount zoneDB "Europe/Rome" (19813 * usPerDay) := by
      unfold localDayHourCount
      rw [hday, show ((19813 : Int) * usPerDay).ediv usPerDay = 19813 from by decide]
    have hval : localDayHourCount zoneDB "Europe/Rome" (19813 * usPerDay) = .ok 23 := rfl
    rw [hsame, hval] at h2
    have h23 : n = 23 := by simpa using h2.symm
    exact ⟨h23, by rw [hkey, h23]; decide⟩
  · intro hdb hz2 hday
    subst hdb; subst hz2
    have hsame : localDayHourCount zoneDB "Europe/Rome" t =
        localDayHourCount zoneDB "Europe/Rome" (20023 * usPerDay) := by
      unfold localDayHourCount
      rw [hday, show ((20023 : Int) * usPerDay).ediv usPerDay = 20023 from by decide]
    have hval : localDayHourCount zoneDB "Europe/Rome" (20023 * usPerDay) = .ok 25 := rfl
    rw [hsame, hval] at h2
    have h25 : n = 25 := by simpa using h2.symm
    exact ⟨h25, by rw [hkey, h25]; decide⟩

/-- C2 witness: local noon of 2024-03-31 in Europe/Rome converts with a
23-hour day and the spring-forward tag. -/
theorem C2_witness :
    TimeConverter.local_to_utc {} zoneDB (.dt mar31noon2024) "Europe/Rome" =
      .ok { input_local_time := mar31noon2024, timezone := "Europe/Rome",
            utc_time := 1711879200000000, is_dst := true,
            dst_transition := some springMsg } ∧
    localDayHourCount zoneDB "Europe/Rome" mar31noon2024 = .ok 23 ∧
    ({ input_local_time := mar31noon2024, timezone := "Europe/Rome",
       utc_time := 1711879200000000, is_dst := true,
       dst_transition := some springMsg } : LocalToUtcResult).dst_transition =
      some springMsg :=
  ⟨rfl, rfl,
    ((C2_day_length_classification {} zoneDB mar31noon2024 "Europe/Rome"
      { input_local_time := mar31noon2024, timezone := "Europe/Rome",
        utc_time := 1711879200000000, is_dst := true,
        dst_transition := some springMsg } 23 rfl rfl).1.2.1) rfl⟩

/-- C5 as written is false: local noon of 2024-03-31 in Antarctica/Troll
(a two-hour spring-forward, so the local day counts 22 hourly instants,
outside 23..25) is answered with a normal result whose `dst_transition`
is `none` — no error of any kind is raised. -/
theorem C5_counterexample :
    localDayHourCount zoneDB "Antarctica/Troll" mar31noon2024 = .ok 22 ∧
    TimeConverter.local_to_utc {} zoneDB (.dt mar31noon2024) "Antarctica/Troll" =
      .ok { input_local_time := mar31noon2024, timezone := "Antarctica/Troll",
            utc_time := 1711879200000000, is_dst := true,
            dst_transition := none } :=
  ⟨rfl, rfl⟩

/-- C5 amended: a day-length hour count outside 23..25 is silently
absorbed — the conversion still succeeds and merely leaves
`dst_transition` as `none`; the code has no anomaly error at all. -/
theorem C5_anomaly_absorbed (c : TimeConverter) (db : ZoneDB) (t : Int)
    (z : String) (r : LocalToUtcResult) (n : Int)
    (h1 : c.local_to_utc db (.dt t) z = .ok r)
    (h2 : localDayHourCount db z t = .ok n)
    (h3 : n ≠ 23) (h4 : n ≠ 24) (h5 : n ≠ 25) :
    r.dst_transition = none := by
  obtain ⟨tz, u, o, d, us, os, ds2, ue, oe, de2, hz, hl, hs, he, hr⟩ :=
    local_to_utc_ok_elim h1
  have hn : localDayHourCount db z t = .ok (dateRangeHourCount us ue) := by
    unfold localDayHourCount
    simp only [hz, hs, he]
  rw [h2] at hn
  have hcount : n = dateRangeHourCount us ue := by
    simpa using hn
  rw [hr, ← hcount]
  unfold classifyDayHours
  rw [if_pos h4, if_neg h3, if_neg h5]

/-- C5 amended witness, at the Troll 22-hour day. -/
theorem C5_witness :
    TimeConverter.local_to_utc {} zoneDB (.dt mar31noon2024) "Antarctica/Troll" =
      .ok { input_local_time := mar31noon2024, timezone := "Antarctica/Troll",
            utc_time := 1711879200000000, is_dst := true,
            dst_transition := none } ∧
    ({ input_local_time := mar31noon2024, timezone := "Antarctica/Troll",
       utc_time := 1711879200000000, is_dst := true,
       dst_transition := none } : LocalToUtcResult).dst_transition = none :=
  ⟨rfl,
    C5_anomaly_absorbed {} zoneDB mar31noon2024 "Antarctica/Troll"
      { input_local_time := mar31noon2024, timezone := "Antarctica/Troll",
        utc_time := 1711879200000000, is_dst := true,
        dst_transition := none } 22 rfl rfl
      (by decide) (by decide) (by decide)⟩

/-- C4 as written is false: at the Europe/Rome fall-back the repeated
wall-clock time 2024-10-27 02:30 makes `local_to_utc` raise the
ambiguous-time error, and at the spring-forward the skipped wall-clock
time 2024-03-31 02:30 raises the non-existent-time error — neither is
resolved into a returned result. -/
theorem C4_counterexample :
    TimeConverter.local_to_utc {} zoneDB (.str "2024-10-27 02:30") "Europe/Rome" =
      .error .ambiguousTime ∧
    TimeConverter.local_to_utc {} zoneDB (.str "2024-03-31 02:30") "Europe/Rome" =
      .error .nonExistentTime :=
  ⟨rfl, rfl⟩

/-- C4 amended: `local_to_utc` localizes its input with the strict
`is_dst=None` policy, so an ambiguous or non-existent wall-clock time is
surfaced as the corresponding error instead of being disambiguated into a
result. -/
theorem C4_strict_localization (c : TimeConverter) (db : ZoneDB) (t : Int)
    (z : String) (tz : Timezone) (e : TCError)
    (h1 : pytzTimezone db z = some tz) (h2 : localize tz t = .error e) :
    c.local_to_utc db (.dt t) z = .error e := by
  unfold TimeConverter.local_to_utc
  simp only [parseInput]
  rw [h1]
  simp only [h2]

/-- C4 amended witness: the repeated half-hour of the Rome fall-back. -/
theorem C4_witness :
    TimeConverter.local_to_utc {} zoneDB (.dt ((20023 * 86400 + 9000) * 1000000))
      "Europe/Rome" = .error .ambiguousTime :=
  C4_strict_localization {} zoneDB ((20023 * 86400 + 9000) * 1000000)
    "Europe/Rome" europeRome .ambiguousTime rfl rfl

/-- C7 as written is false: the allegedly malformed string `"31-03-2024"`
is accepted by the pandas format inference (day-first, since 31 cannot be
a month) and `local_to_utc` returns a normal result for 2024-03-31 rather
than raising a parse error. -/
theorem C7_counterexample :
    TimeConverter.local_to_utc {} zoneDB (.str "31-03-2024") "Asia/Taipei" =
      .ok { input_local_time := 1711843200000000, timezone := "Asia/Taipei",
            utc_time := 1711814400000000, is_dst := false,
            dst_transition := none } :=
  rfl

/-- C7 amended: a string the pandas format inference cannot read makes
both operations fail with the parse error; but hyphenated numeric dates
such as `"31-03-2024"` are parsed (day-first when the first field exceeds
12), not rejected. -/
theorem C7_parse_failure (c : TimeConverter) (db : ZoneDB) (s : String)
    (z : String) (h : pdToDatetime s = none) :
    c.local_to_utc db (.str s) z = .error .parseError ∧
    c.utc_to_local db (.str s) z = .error .parseError := by
  constructor
  · unfold TimeConverter.local_to_utc
    simp only [parseInput, h]
  · unfold TimeConverter.utc_to_local
    simp only [parseInput, h]

/-- C7 amended witness on a string with non-numeric fields. -/
theorem C7_witness :
    TimeConverter.local_to_utc {} zoneDB (.str "not-a-date") "Asia/Taipei" =
      .error .parseError ∧
    TimeConverter.utc_to_local {} zoneDB (.str "not-a-date") "Asia/Taipei" =
      .error .parseError :=
  C7_parse_failure {} zoneDB "not-a-date" "Asia/Taipei" rfl

/-- C1 as written is false: local noon of 2023-10-01 in America/Asuncion
is 11 hours away from the zone's spring-forward boundary (the skipped
hour ends at 01:00 that day, as the second conjunct states), yet
`local_to_utc` raises the non-existent-time error — the method localizes
the day's midnight, which the midnight transition skipped — so the
round trip never produces the original moment. -/
theorem C1_counterexample :
    TimeConverter.local_to_utc {} zoneDB (.dt asuncionOct1noon2023)
      "America/Asuncion" = .error .nonExistentTime ∧
    asuncionOct1noon2023 - civilUs 2023 10 1 1 0 = 11 * usPerHour :=
  ⟨rfl, by decide⟩

/-- C1 amended: whenever `local_to_utc` succeeds at all — which already
excludes ambiguous and skipped wall-clock inputs, and also excludes any
moment of a day whose midnight or final microsecond fails to localize —
feeding the resulting naive UTC moment to `utc_to_local` with the same
timezone succeeds and returns exactly the original local moment. -/
theorem C1_roundtrip (c : TimeConverter) (db : ZoneDB) (t : Int)
    (z : String) (r : LocalToUtcResult)
    (h : c.local_to_utc db (.dt t) z = .ok r) :
    ∃ r2, c.utc_to_local db (.dt r.utc_time) z = .ok r2 ∧ r2.local_time = t := by
  obtain ⟨tz, u, o, d, us, os, ds2, ue, oe, de2, hz, hl, hs, he, hr⟩ :=
    local_to_utc_ok_elim h
  obtain ⟨hoff, hu⟩ := localize_ok_spec hl
  have hut : r.utc_time = u := by rw [hr]
  rw [hut]
  have hconv : c.utc_to_local db (.dt u) z =
      .ok { input_utc_time := u, timezone := z,
            local_time := u + (offsetAt tz u).1 * usPerSec,
            is_dst := decide ((offsetAt tz u).2 ≠ 0),
            dst_transition := classifyDayHours (dateRangeHourCount
              (u.ediv usPerDay * usPerDay)
              (u.ediv usPerDay * usPerDay + usPerDay - 1)) } := by
    unfold TimeConverter.utc_to_local
    simp only [parseInput]
    rw [hz]
  refine ⟨_, hconv, ?_⟩
  show u + (offsetAt tz u).1 * usPerSec = t
  rw [hoff]
  show u + o * usPerSec = t
  rw [hu]
  exact sub_add_cancel (t) (o * usPerSec)

/-- C1 amended witness: the Rome spring-forward noon round-trips to
itself. -/
theorem C1_witness :
    ∃ r2, TimeConverter.utc_to_local {} zoneDB (.dt 1711879200000000)
        "Europe/Rome" = .ok r2 ∧ r2.local_time = mar31noon2024 :=
  C1_roundtrip {} zoneDB mar31noon2024 "Europe/Rome"
    { input_local_time := mar31noon2024, timezone := "Europe/Rome",
      utc_time := 1711879200000000, is_dst := true,
      dst_transition := some springMsg } rfl

/-- C8: in both operations `is_dst` is true exactly when the
daylight-saving component of the offset in force at the conversion
instant is non-zero; and concretely, converting UTC 2024-10-27 01:30 to
Asia/Taipei (a zone with no DST) yields `is_dst = false` and no
transition tag. -/
theorem C8_is_dst_semantics :
    (∀ (c : TimeConverter) (db : ZoneDB) (t : Int) (z : String)
        (tz : Timezone) (r : UtcToLocalResult),
      pytzTimezone db z = some tz →
      c.utc_to_local db (.dt t) z = .ok r →
      (r.is_dst = true ↔ (offsetAt tz t).2 ≠ 0)) ∧
    (∀ (c : TimeConverter) (db : ZoneDB) (t : Int) (z : String)
        (tz : Timezone) (r : LocalToUtcResult) (u o d : Int),
      pytzTimezone db z = some tz →
      localize tz t = .ok (u, o, d) →
      c.local_to_utc db (.dt t) z = .ok r →
      (r.is_dst = true ↔ d ≠ 0)) ∧
    TimeConverter.utc_to_local {} zoneDB (.str "2024-10-27 01:30")
        "Asia/Taipei" =
      .ok { input_utc_time := 1729992600000000, timezone := "Asia/Taipei",
            local_time := 1730021400000000, is_dst := false,
            dst_transition := none } := by
  refine ⟨?_, ?_, rfl⟩
  · intro c db t z tz r hz h
    obtain ⟨tz2, hz2, hr⟩ := utc_to_local_ok_elim h
    rw [hz] at hz2
    obtain rfl : tz = tz2 := Option.some.inj hz2
    rw [hr]
    exact decide_eq_true_iff
  · intro c db t z tz r u o d hz hloc h
    obtain ⟨tz2, u2, o2, d2, us, os, ds2, ue, oe, de2, hz2, hl, _, _, hr⟩ :=
      local_to_utc_ok_elim h
    rw [hz] at hz2
    obtain rfl : tz = tz2 := Option.some.inj hz2
    rw [hloc] at hl
    have hd : d = d2 := by
      simp only [Except.ok.injEq, Prod.mk.injEq] at hl
      exact hl.2.2
    rw [hr, ← hd]
    exact decide_eq_true_iff

/-- C8 witness at the Taipei probe instant, given structured. -/
theorem C8_witness :
    TimeConverter.utc_to_local {} zoneDB (.dt taipeiProbe) "Asia/Taipei" =
      .ok { input_utc_time := taipeiProbe, timezone := "Asia/Taipei",
            local_time := 1730021400000000, is_dst := false,
            dst_transition := none } ∧
    (({ input_utc_time := taipeiProbe, timezone := "Asia/Taipei",
        local_time := 1730021400000000, is_dst := false,
        dst_transition := none } : UtcToLocalResult).is_dst = true ↔
      (offsetAt asiaTaipei taipeiProbe).2 ≠ 0) :=
  ⟨rfl, C8_is_dst_semantics.1 {} zoneDB taipeiProbe "Asia/Taipei" asiaTaipei
    { input_utc_time := taipeiProbe, timezone := "Asia/Taipei",
      local_time := 1730021400000000, is_dst := false,
      dst_transition := none } rfl rfl⟩
